import Mathlib

/-!
Verification of the `ucanme/canview` utility scripts.

Two independent components are embedded:

* `ParseErrors` — the diagnostics summarizer `parse_errors.py`, a single-pass
  scan over a UTF-16 file of newline-delimited JSON compiler diagnostics.
  JSON values are modelled by the inductive `Json` (Python `None`/JSON `null`
  is `Json.null`); Python `dict.get`, `==`-against-a-string, `str()` and
  `for … in` iteration are modelled by `pyGet`, `pyEqStr`, `pyStr` and
  `pyIter`; the bare `try/except: pass` around each line is modelled by
  keeping the output printed before the first raised exception and
  discarding the rest of the line's processing.

* `ConvertIcons` — the icon generator `assets/convert_icons.py`.  Drawing is
  modelled symbolically: a generated image records its dimensions, background
  fill, and the list of `draw.ellipse` calls (bounding box plus fill colour).
  The filesystem is a list of directories and a path-to-file map; the imaging
  library's ICO writer is modelled as Pillow behaves: it writes frames for
  the requested `sizes` only after discarding every size larger than the
  base image being saved (or larger than 256), so a save called on the
  16×16 image without `append_images` keeps only the 16×16 frame.
-/

namespace ParseErrors

/-- JSON values as produced by `json.loads`; `null` doubles as Python `None`.
Numeric literals are modelled for integers, the only numbers occurring in
compiler-diagnostic records (`line_start`, `column_start`). -/
inductive Json where
  | null
  | bool (b : Bool)
  | num (n : Int)
  | str (s : String)
  | arr (elems : List Json)
  | obj (members : List (String × Json))

/-- Key lookup in an object's member list.  `json.loads` keeps the last
occurrence of a duplicated key, so the lookup prefers later members. -/
def jsonLookup : List (String × Json) → String → Option Json
  | [], _ => none
  | (k, v) :: rest, key =>
    match jsonLookup rest key with
    | some w => some w
    | none => if k = key then some v else none

/-- Python `value.get(key, default)`: only dictionaries have `.get`; every
other value (including `None`) raises `AttributeError`, modelled as
`Except.error ()`. -/
def pyGet : Json → String → Json → Except Unit Json
  | .obj members, key, dflt => .ok ((jsonLookup members key).getD dflt)
  | _, _, _ => .error ()

/-- Python `value == "literal"`: true exactly for the equal string; comparing
a non-string against a string is `False`, never an error. -/
def pyEqStr : Json → String → Bool
  | .str t, s => t = s
  | _, _ => false

/-- Python `for x in value`: lists yield their elements, strings their
characters (as one-character strings), dictionaries their keys; every other
value raises `TypeError`. -/
def pyIter : Json → Except Unit (List Json)
  | .arr elems => .ok elems
  | .str s => .ok (s.toList.map fun c => .str (String.singleton c))
  | .obj members => .ok (members.map fun kv => .str kv.1)
  | _ => .error ()

mutual

/-- Python `str()` as used by f-string interpolation: `None → "None"`,
booleans capitalised, integers in decimal, strings verbatim, containers via
`repr` of their elements.  String `repr` is modelled with a fixed
single-quote (`\x27`) delimiter. -/
def pyStr : Json → String
  | .null => "None"
  | .bool true => "True"
  | .bool false => "False"
  | .num n => toString n
  | .str s => s
  | .arr elems => "[" ++ pyReprList elems ++ "]"
  | .obj members => "\x7b" ++ pyReprMembers members ++ "\x7d"

/-- Python `repr()` for container elements. -/
def pyRepr : Json → String
  | .null => "None"
  | .bool true => "True"
  | .bool false => "False"
  | .num n => toString n
  | .str s => "\x27" ++ s ++ "\x27"
  | .arr elems => "[" ++ pyReprList elems ++ "]"
  | .obj members => "\x7b" ++ pyReprMembers members ++ "\x7d"

/-- Comma-separated `repr`s of list elements. -/
def pyReprList : List Json → String
  | [] => ""
  | [x] => pyRepr x
  | x :: xs => pyRepr x ++ ", " ++ pyReprList xs

/-- Comma-separated `key: value` pairs of a dictionary `repr`. -/
def pyReprMembers : List (String × Json) → String
  | [] => ""
  | [(k, v)] => "\x27" ++ k ++ "\x27: " ++ pyRepr v
  | (k, v) :: kvs => "\x27" ++ k ++ "\x27: " ++ pyRepr v ++ ", " ++ pyReprMembers kvs

end

/-- The two lines printed for one span:
`print(f"File: {span.get('file_name')}:{span.get('line_start')}:{span.get('column_start')}")`
then `print(f"Text: {span.get('text', [])}")`.  A non-dictionary span raises
at the first `.get`, before anything of the block is printed. -/
def spanLines (span : Json) : Except Unit (List String) := do
  let fn ← pyGet span "file_name" Json.null
  let ls ← pyGet span "line_start" Json.null
  let cs ← pyGet span "column_start" Json.null
  let tx ← pyGet span "text" (Json.arr [])
  pure ["File: " ++ pyStr fn ++ ":" ++ pyStr ls ++ ":" ++ pyStr cs,
        "Text: " ++ pyStr tx]

/-- The `for span in msg.get('spans', [])` loop: blocks accumulate until a
span raises, at which point the exception aborts the rest of the loop while
the blocks already printed remain. -/
def processSpans : List Json → List String
  | [] => []
  | span :: rest =>
    match spanLines span with
    | .error _ => []
    | .ok ls => ls ++ processSpans rest

/-- The printed block of one span when its field accesses succeed, and
nothing when they raise. -/
def spanBlock (span : Json) : List String :=
  match spanLines span with
  | .ok ls => ls
  | .error _ => []

/-- Processing of one successfully parsed line (the body of the `try` after
`json.loads`): the `reason`/`level` filter, then the `Error:`, `Code:` and
span prints, retaining output printed before any raised exception. -/
def processData (data : Json) : List String :=
  match pyGet data "reason" Json.null with
  | .error _ => []
  | .ok reason =>
    if pyEqStr reason "compiler-message" then
      match pyGet data "message" Json.null with
      | .error _ => []
      | .ok msg =>
        match pyGet msg "level" Json.null with
        | .error _ => []
        | .ok level =>
          if pyEqStr level "error" then
            match pyGet msg "message" Json.null with
            | .error _ => []
            | .ok mv =>
              let line1 := "Error: " ++ pyStr mv
              match pyGet msg "code" (Json.obj []) with
              | .error _ => [line1]
              | .ok c0 =>
                match pyGet c0 "code" Json.null with
                | .error _ => [line1]
                | .ok cv =>
                  let line2 := "Code: " ++ pyStr cv
                  match pyGet msg "spans" (Json.arr []) with
                  | .error _ => [line1, line2]
                  | .ok sp =>
                    match pyIter sp with
                    | .error _ => [line1, line2]
                    | .ok spans => line1 :: line2 :: processSpans spans
          else []
    else []

/-- JSON insignificant whitespace. -/
def isJsonWs (c : Char) : Bool :=
  c = ' ' ∨ c = '\t' ∨ c = '\n' ∨ c = '\r'

/-- Drop leading JSON whitespace. -/
def skipWs : List Char → List Char
  | [] => []
  | c :: cs => if isJsonWs c then skipWs cs else c :: cs

/-- Decoding of a single-character JSON string escape; `\u` sequences do not
occur in the diagnostics stream and are not modelled. -/
def escChar : Char → Option Char
  | 'n' => some '\n'
  | 't' => some '\t'
  | 'r' => some '\r'
  | 'f' => some (Char.ofNat 12)
  | 'b' => some (Char.ofNat 8)
  | '/' => some '/'
  | '"' => some '"'
  | '\\' => some '\\'
  | _ => none

/-- Body of a JSON string literal, after the opening quote; returns the
decoded string and the input after the closing quote. -/
def parseStringBody : List Char → Option (String × List Char)
  | [] => none
  | '"' :: cs => some ("", cs)
  | '\\' :: [] => none
  | '\\' :: e :: cs2 =>
    match escChar e with
    | none => none
    | some ec =>
      match parseStringBody cs2 with
      | none => none
      | some (s, r) => some (String.singleton ec ++ s, r)
  | c :: cs =>
    match parseStringBody cs with
    | none => none
    | some (s, r) => some (String.singleton c ++ s, r)

/-- One or more decimal digits, as a number. -/
def parseDigits : List Char → Option (Nat × List Char)
  | [] => none
  | c :: cs =>
    if c.isDigit then
      let rest := parseDigitsAux cs (c.toNat - 48)
      some rest
    else none
where
  /-- Accumulate further digits into the value parsed so far. -/
  parseDigitsAux : List Char → Nat → Nat × List Char
    | [], acc => (acc, [])
    | c :: cs, acc =>
      if c.isDigit then parseDigitsAux cs (acc * 10 + (c.toNat - 48))
      else (acc, c :: cs)

mutual

/-- Fuel-indexed recursive-descent parser for one JSON value, returning the
value and the unconsumed input. -/
def parseValue : Nat → List Char → Option (Json × List Char)
  | 0, _ => none
  | Nat.succ fuel, cs0 =>
    match skipWs cs0 with
    | [] => none
    | c :: cs =>
      if c = '"' then
        match parseStringBody cs with
        | some (s, r) => some (Json.str s, r)
        | none => none
      else if c = '{' then
        match skipWs cs with
        | '}' :: r => some (Json.obj [], r)
        | cs2 =>
          match parseMembers fuel cs2 with
          | some (kvs, r) => some (Json.obj kvs, r)
          | none => none
      else if c = '[' then
        match skipWs cs with
        | ']' :: r => some (Json.arr [], r)
        | cs2 =>
          match parseElems fuel cs2 with
          | some (xs, r) => some (Json.arr xs, r)
          | none => none
      else if c = 't' then
        match cs with
        | 'r' :: 'u' :: 'e' :: r => some (Json.bool true, r)
        | _ => none
      else if c = 'f' then
        match cs with
        | 'a' :: 'l' :: 's' :: 'e' :: r => some (Json.bool false, r)
        | _ => none
      else if c = 'n' then
        match cs with
        | 'u' :: 'l' :: 'l' :: r => some (Json.null, r)
        | _ => none
      else if c = '-' then
        match parseDigits cs with
        | some (n, r) => some (Json.num (-(n : Int)), r)
        | none => none
      else if c.isDigit then
        match parseDigits (c :: cs) with
        | some (n, r) => some (Json.num (n : Int), r)
        | none => none
      else none

/-- The members of a non-empty object, positioned after the opening brace. -/
def parseMembers : Nat → List Char → Option (List (String × Json) × List Char)
  | 0, _ => none
  | Nat.succ fuel, cs0 =>
    match skipWs cs0 with
    | '"' :: cs =>
      match parseStringBody cs with
      | some (k, r1) =>
        match skipWs r1 with
        | ':' :: r2 =>
          match parseValue fuel r2 with
          | some (v, r3) =>
            match skipWs r3 with
            | ',' :: r4 =>
              match parseMembers fuel r4 with
              | some (kvs, r5) => some ((k, v) :: kvs, r5)
              | none => none
            | '}' :: r4 => some ([(k, v)], r4)
            | _ => none
          | none => none
        | _ => none
      | none => none
    | _ => none

/-- The elements of a non-empty array, positioned after the opening bracket. -/
def parseElems : Nat → List Char → Option (List Json × List Char)
  | 0, _ => none
  | Nat.succ fuel, cs0 =>
    match parseValue fuel cs0 with
    | some (v, r1) =>
      match skipWs r1 with
      | ',' :: r2 =>
        match parseElems fuel r2 with
        | some (xs, r3) => some (v :: xs, r3)
        | none => none
      | ']' :: r2 => some ([v], r2)
      | _ => none
    | none => none

end

/-- Model of `json.loads` applied to one line: parse exactly one value,
allowing surrounding whitespace (which covers the trailing newline kept by
file-line iteration); `none` models a raised `JSONDecodeError`. -/
def jsonParse (s : String) : Option Json :=
  match parseValue (2 * s.length + 2) s.toList with
  | some (v, r) => if skipWs r = [] then some v else none
  | none => none

/-- Processing of one input line: `json.loads` inside the `try`, then the
record handling; any exception is swallowed, keeping prior prints. -/
def runLine (line : String) : List String :=
  match jsonParse line with
  | some data => processData data
  | none => []

/-- The `for line in f` scan: every line is processed, outputs concatenate. -/
def runFile : List String → List String
  | [] => []
  | line :: rest => runLine line ++ runFile rest

/-- The state of `check_errors.json` when the script starts: absent,
present but not decodable as UTF-16 (carrying the lines decoded before the
decode error surfaces), or fully decodable into lines. -/
inductive FileState where
  | missing
  | undecodable (decodedPrefix : List String)
  | ok (lines : List String)

/-- Result of one run of the script: process exit code and printed lines. -/
structure RunResult where
  exitCode : Nat
  output : List String
deriving DecidableEq

/-- The module body of `parse_errors.py`.  `open` and the line iteration sit
outside the `try`, so a missing file (`FileNotFoundError`) or a UTF-16
decode failure (`UnicodeDecodeError`) propagates and the interpreter exits
with status 1; otherwise every line is scanned and the script exits 0. -/
def runScript : FileState → RunResult
  | .missing => ⟨1, []⟩
  | .undecodable decodedPrefix => ⟨1, runFile decodedPrefix⟩
  | .ok lines => ⟨0, runFile lines⟩

end ParseErrors

namespace ConvertIcons

/-- An RGB triple. -/
abbrev RGB := Nat × Nat × Nat

/-- An RGB triple with an alpha channel, as passed to the drawing calls. -/
abbrev RGBA := RGB × Nat

/-- The fixed palette `COLORS` of `convert_icons.py`. -/
structure Palette where
  bg : RGB
  node1 : RGB
  node2 : RGB
  node3 : RGB
deriving DecidableEq

/-- `COLORS = {'bg': (30,41,59), 'node1': (52,211,153), 'node2': (96,165,250), 'node3': (129,140,248)}`. -/
def COLORS : Palette :=
  { bg := (30, 41, 59), node1 := (52, 211, 153), node2 := (96, 165, 250), node3 := (129, 140, 248) }

/-- One `draw.ellipse([x0, y0, x1, y1], fill=...)` call, recorded
symbolically by its bounding box and fill colour. -/
structure Ellipse where
  x0 : Int
  y0 : Int
  x1 : Int
  y1 : Int
  fill : RGBA
deriving DecidableEq

/-- Centre x of an ellipse's bounding box. -/
def centerX (e : Ellipse) : Int := (e.x0 + e.x1) / 2

/-- Centre y of an ellipse's bounding box. -/
def centerY (e : Ellipse) : Int := (e.y0 + e.y1) / 2

/-- Horizontal radius of an ellipse's bounding box. -/
def radiusOf (e : Ellipse) : Int := (e.x1 - e.x0) / 2

/-- An in-memory image: `Image.new('RGBA', (w, h), bgColour)` followed by a
sequence of ellipse draws. -/
structure Image where
  width : Nat
  height : Nat
  bg : RGBA
  ellipses : List Ellipse
deriving DecidableEq

/-- `generate_simple_icon(size, ...)`: a `size`×`size` canvas filled with the
background colour, with 5 node circles drawn on the horizontal centreline.
`int(node_radius * 1.5)` on a small integer radius is exact float arithmetic
truncated, i.e. `3 * node_radius / 2` in natural division.  The source also
computes `line_width = max(1, size // 64)` but never draws with it. -/
def generate_simple_icon (size : Nat) : Image :=
  let padding := size / 8
  let content_size := size - 2 * padding
  let center_y := size / 2
  let num_nodes := 5
  let node_spacing := content_size / (num_nodes + 1)
  let node_radius := max 2 (size / 32)
  let circles := (List.range num_nodes).map (fun i =>
    let x := padding + node_spacing * (i + 1)
    let y := center_y
    let colorRadius :=
      if i = 2 then (COLORS.node3, 3 * node_radius / 2)
      else if i = 1 ∨ i = 3 then (COLORS.node2, node_radius)
      else (COLORS.node1, node_radius)
    { x0 := (x : Int) - (colorRadius.2 : Int), y0 := (y : Int) - (colorRadius.2 : Int),
      x1 := (x : Int) + (colorRadius.2 : Int), y1 := (y : Int) + (colorRadius.2 : Int),
      fill := (colorRadius.1, 255) : Ellipse })
  { width := size, height := size, bg := (COLORS.bg, 255), ellipses := circles }

/-- Contents of a file written by the script: a saved PNG image, or the ICO
bundle, which records one frame dimension per entry of the `sizes` argument
passed to the imaging library's ICO writer. -/
inductive FileData where
  | png (img : Image)
  | ico (frames : List (Nat × Nat))
deriving DecidableEq

/-- The filesystem visible to the script: directories and a path-to-content
map, newest write first. -/
structure FS where
  dirs : List String
  files : List (String × FileData)
deriving DecidableEq

/-- `Path(d).mkdir(exist_ok=True)`. -/
def fsMkdir (fs : FS) (d : String) : FS :=
  { fs with dirs := if d ∈ fs.dirs then fs.dirs else d :: fs.dirs }

/-- Writing (or overwriting) a file. -/
def fsWrite (fs : FS) (p : String) (d : FileData) : FS :=
  { fs with files := (p, d) :: fs.files }

/-- File lookup: the newest write to the path, if any. -/
def fsLookup (fs : FS) (p : String) : Option FileData :=
  (fs.files.find? (fun kv => kv.1 = p)).map (fun kv => kv.2)

/-- `png_dir / f"icon_{size}.png"` rendered as a POSIX path. -/
def pngPath (size : Nat) : String := "png/icon_" ++ toString size ++ ".png"

/-- `sizes = [512, 256, 128, 64, 48, 32]`. -/
def pngSizes : List Nat := [512, 256, 128, 64, 48, 32]

/-- The sizes re-loaded from disk for the ICO bundle. -/
def icoSizes : List Nat := [32, 48, 64, 128, 256]

/-- The PNG generation loop: each size is drawn and saved, printing a
confirmation line per file. -/
def savePngs : FS → List Nat → FS × List String
  | fs, [] => (fs, [])
  | fs, size :: rest =>
    let img := generate_simple_icon size
    let fs2 := fsWrite fs (pngPath size) (FileData.png img)
    let out := savePngs fs2 rest
    (out.1,
     ("✓ Generated icon_" ++ toString size ++ ".png (" ++ toString size ++ "x"
        ++ toString size ++ ")") :: out.2)

/-- The hand-drawn 16×16 image: background fill plus
`draw_16.ellipse([6, 6, 10, 10], fill=(*COLORS['node3'], 255))`. -/
def img16 : Image :=
  { width := 16, height := 16, bg := (COLORS.bg, 255),
    ellipses := [{ x0 := 6, y0 := 6, x1 := 10, y1 := 10, fill := (COLORS.node3, 255) }] }

/-- The `images` list of the bundle step: the 16×16 image, then each of the
32/48/64/128/256 PNGs whose file exists on disk, loaded via `Image.open`. -/
def loadIcoImages (fs : FS) : List Image :=
  img16 :: icoSizes.filterMap (fun size =>
    match fsLookup fs (pngPath size) with
    | some (FileData.png img) => some img
    | _ => none)

/-- The frames Pillow's ICO writer actually stores for a save call on
`base` with a `sizes` argument: every requested size whose width or height
exceeds the base image's (or 256) is dropped.  (The writer also sorts and
deduplicates the requested sizes; for this program's request list —
ascending and duplicate-free — that is the identity and is not modelled.) -/
def icoWriterFrames (base : Image) (sizes : List (Nat × Nat)) : List (Nat × Nat) :=
  sizes.filter (fun sz =>
    decide (sz.1 ≤ base.width) && decide (sz.2 ≤ base.height) &&
    decide (sz.1 ≤ 256) && decide (sz.2 ≤ 256))

/-- Environment of one run: whether `from PIL import ...` succeeds, whether
the ICO save call succeeds, the text of the exception when it does not, and
the absolute working directory used by the final `Path.absolute()` prints. -/
structure Env where
  pillowAvailable : Bool
  icoSaveOk : Bool
  icoError : String
  cwd : String

/-- Result of one run of the icon generator: the process exit code (the
value returned by `main` and passed to `sys.exit`), the resulting
filesystem, and the printed lines. -/
structure MainResult where
  exitCode : Nat
  fs : FS
  output : List String

/-- The `"=" * 60` banner line. -/
def ruler : String := String.mk (List.replicate 60 '=')

/-- The `main()` function of `convert_icons.py`.  With the imaging library
missing it prints the installation hint and returns 1 before touching the
filesystem; otherwise it creates the two directories, draws and saves the
six PNGs, then runs the bundle step inside a `try` whose failure is
reported and survived, and returns 0.  The bundle step calls `save` on
`images[0]` — the 16×16 canvas — passing the other images' dimensions only
through the `sizes` argument (no `append_images`), so the writer keeps just
the sizes that fit the 16×16 base. -/
def main (env : Env) (fs0 : FS) : MainResult :=
  let header := [ruler, "CANVIEW Icon Converter", ruler, ""]
  if env.pillowAvailable = false then
    { exitCode := 1, fs := fs0,
      output := header ++
        ["❌ Error: PIL/Pillow not installed!", "",
         "Please install it using:", "  pip install Pillow", "",
         "Or install cairosvg for better SVG conversion:", "  pip install cairosvg", ""] }
  else
    let fs1 := fsMkdir (fsMkdir fs0 "png") "ico"
    let gen := savePngs fs1 pngSizes
    let images := loadIcoImages gen.1
    let sizesArg := images.map (fun im => (im.width, im.height))
    let base := images.headD img16
    let bundled :=
      if env.icoSaveOk then
        (fsWrite gen.1 "ico/canview.ico" (FileData.ico (icoWriterFrames base sizesArg)),
         ["✓ Created ico/canview.ico"])
      else
        (gen.1,
         ["❌ Error creating ICO: " ++ env.icoError,
          "   PNG files are still available in ./png/ directory"])
    { exitCode := 0, fs := bundled.1,
      output := header ++ ["Generating PNG icons...", ""] ++ gen.2 ++
        ["", "Creating ICO file..."] ++ bundled.2 ++
        ["", ruler, "✓ Conversion complete!", ruler, "",
         "Output files:",
         "  PNG files: " ++ env.cwd ++ "/png/",
         "  ICO file:  " ++ env.cwd ++ "/ico/canview.ico", "",
         "Note: These are simplified icons. For best quality, use:",
         "  1. ImageMagick: convert_icons.bat (Windows)",
         "  2. Online tools: https://cloudconvert.com/svg-to-png", ""] }

end ConvertIcons

open ParseErrors ConvertIcons

/-- The single well-formed diagnostics line of the spec's testable property. -/
def c6line : String := "\x7b\"reason\":\"compiler-message\",\"message\":\x7b\"level\":\"error\",\"message\":\"mismatched types\",\"code\":\x7b\"code\":\"E0308\"\x7d,\"spans\":[\x7b\"file_name\":\"a.rs\",\"line_start\":3,\"column_start\":5,\"text\":[]\x7d]\x7d\x7d"

/-- A compiler-message error line whose `code` key is explicitly JSON `null`. -/
def c10line : String := "\x7b\"reason\":\"compiler-message\",\"message\":\x7b\"level\":\"error\",\"message\":\"borrow of moved value\",\"code\":null,\"spans\":[\x7b\"file_name\":\"b.rs\",\"line_start\":1,\"column_start\":2,\"text\":[]\x7d]\x7d\x7d"

/-- The span object of the well-formed record, as a parsed member list. -/
def wfSpan : List (String × Json) :=
  [("file_name", Json.str "a.rs"), ("line_start", Json.num 3),
   ("column_start", Json.num 5), ("text", Json.arr [])]

/-- The `message` object of the well-formed record. -/
def wfMsg : Json :=
  Json.obj [("level", Json.str "error"), ("message", Json.str "mismatched types"),
            ("code", Json.obj [("code", Json.str "E0308")]),
            ("spans", Json.arr [Json.obj wfSpan])]

/-- The well-formed record as a parsed value. -/
def wfRecord : Json :=
  Json.obj [("reason", Json.str "compiler-message"), ("message", wfMsg)]

/-- The `message` object of a record whose `code` key is JSON `null`. -/
def nullCodeMsg : Json :=
  Json.obj [("level", Json.str "error"),
            ("message", Json.str "expected struct"),
            ("code", Json.null),
            ("spans", Json.arr [Json.obj wfSpan])]

/-- A parsed record with reason `compiler-message`, level `error`, one span,
and the key `code` set to JSON `null`. -/
def nullCodeRecord : Json :=
  Json.obj [("reason", Json.str "compiler-message"), ("message", nullCodeMsg)]

/-- Environment of a fully successful icon-generator run. -/
def envFull : Env :=
  { pillowAvailable := true, icoSaveOk := true, icoError := "", cwd := "/work/assets" }

/-- Environment of a run with the imaging dependency missing. -/
def envNoPillow : Env :=
  { pillowAvailable := false, icoSaveOk := true, icoError := "", cwd := "/work/assets" }

/-- Environment of a run whose ICO save call raises. -/
def envIcoFails : Env :=
  { pillowAvailable := true, icoSaveOk := false, icoError := "unable to write",
    cwd := "/work/assets" }

/-- An empty starting filesystem. -/
def emptyFS : FS := { dirs := [], files := [] }

/-- Default ellipse used when indexing a drawn-ellipse list. -/
def probeEllipse : Ellipse :=
  { x0 := 0, y0 := 0, x1 := 0, y1 := 0, fill := ((0, 0, 0), 0) }

/-- The `i`-th drawn node of the icon generated at `size`. -/
def nodeAt (size i : Nat) : Ellipse :=
  (ConvertIcons.generate_simple_icon size).ellipses.getD i probeEllipse

/-- C1 counterexample: with `check_errors.json` missing, the script does not
exit with code 0 — the `open` call sits outside the `try`, so the
`FileNotFoundError` propagates and the interpreter exits 1. -/
theorem c1_counterexample :
    ¬ (ParseErrors.runScript ParseErrors.FileState.missing).exitCode = 0 := by
  decide

/-- C1 (amended): the Diagnostics Summarizer exits 0 for every input file
that exists and decodes as UTF-16, whatever its lines contain; when the file
is missing or undecodable, the uncaught `open`/decode error terminates the
process with exit code 1. -/
theorem c1_exit_status :
    (∀ lines, (ParseErrors.runScript (ParseErrors.FileState.ok lines)).exitCode = 0) ∧
    (ParseErrors.runScript ParseErrors.FileState.missing).exitCode = 1 ∧
    (∀ decoded,
      (ParseErrors.runScript (ParseErrors.FileState.undecodable decoded)).exitCode = 1) :=
  ⟨fun _ => rfl, rfl, fun _ => rfl⟩

set_option maxRecDepth 100000 in
/-- C6: on an input file holding the single well-formed compiler-message
line, the summarizer's output contains `Error: mismatched types`,
`Code: E0308` and `File: a.rs:3:5`. -/
theorem c6_well_formed_line :
    "Error: mismatched types" ∈ (ParseErrors.runScript (ParseErrors.FileState.ok [c6line])).output ∧
    "Code: E0308" ∈ (ParseErrors.runScript (ParseErrors.FileState.ok [c6line])).output ∧
    "File: a.rs:3:5" ∈ (ParseErrors.runScript (ParseErrors.FileState.ok [c6line])).output := by
  decide

set_option maxRecDepth 100000 in
/-- C10: exception swallowing is not atomic with output — a record with
reason `compiler-message`, level `error` and `code` explicitly JSON `null`
makes `.get('code')` raise on `None` after `Error:` was already printed, so
the run's output is exactly the `Error:` line, with no following `Code:`
line (and no span block, although a span is present in the input). -/
theorem c10_swallow_keeps_printed_lines :
    (ParseErrors.runScript (ParseErrors.FileState.ok [c10line])).output =
      ["Error: borrow of moved value"] := by
  decide

/-- Python equality against a string literal holds exactly for that string. -/
theorem pyEqStr_eq_true_iff (v : Json) (s : String) :
    pyEqStr v s = true ↔ v = Json.str s := by
  cases v <;> simp [ParseErrors.pyEqStr]

/-- A line's processing prints something only when the record's `reason` is
`compiler-message` and its `message.level` is `error`. -/
theorem processData_output_filter (data : Json)
    (h : ParseErrors.processData data ≠ []) :
    ∃ msg, ParseErrors.pyGet data "reason" Json.null =
        Except.ok (Json.str "compiler-message") ∧
      ParseErrors.pyGet data "message" Json.null = Except.ok msg ∧
      ParseErrors.pyGet msg "level" Json.null = Except.ok (Json.str "error") := by
  unfold ParseErrors.processData at h
  cases hr : ParseErrors.pyGet data "reason" Json.null with
  | error e => rw [hr] at h; simp at h
  | ok reason =>
    simp only [hr] at h
    by_cases hcm : ParseErrors.pyEqStr reason "compiler-message" = true
    · rw [if_pos hcm] at h
      cases hm : ParseErrors.pyGet data "message" Json.null with
      | error e => rw [hm] at h; simp at h
      | ok msg =>
        simp only [hm] at h
        cases hl : ParseErrors.pyGet msg "level" Json.null with
        | error e => rw [hl] at h; simp at h
        | ok level =>
          simp only [hl] at h
          by_cases he : ParseErrors.pyEqStr level "error" = true
          · obtain rfl := (pyEqStr_eq_true_iff reason "compiler-message").1 hcm
            obtain rfl := (pyEqStr_eq_true_iff level "error").1 he
            exact ⟨msg, rfl, rfl, hl⟩
          · rw [if_neg he] at h; simp at h
    · rw [if_neg hcm] at h; simp at h

/-- C7: the per-line filter — the scan always continues to the remaining
lines; a line that is not valid JSON contributes no output; and any line
that does produce output parsed as JSON into a record whose `reason` is
`compiler-message` and whose `message.level` is `error`. -/
theorem c7_line_filter (line : String) (rest : List String) :
    ParseErrors.runFile (line :: rest) =
      ParseErrors.runLine line ++ ParseErrors.runFile rest ∧
    (ParseErrors.jsonParse line = none → ParseErrors.runLine line = []) ∧
    (ParseErrors.runLine line ≠ [] →
      ∃ data msg, ParseErrors.jsonParse line = some data ∧
        ParseErrors.pyGet data "reason" Json.null =
          Except.ok (Json.str "compiler-message") ∧
        ParseErrors.pyGet data "message" Json.null = Except.ok msg ∧
        ParseErrors.pyGet msg "level" Json.null = Except.ok (Json.str "error")) := by
  refine ⟨rfl, ?_, ?_⟩
  · intro hp
    simp [ParseErrors.runLine, hp]
  · intro h
    cases hp : ParseErrors.jsonParse line with
    | none => rw [ParseErrors.runLine, hp] at h; simp at h
    | some data =>
      rw [ParseErrors.runLine, hp] at h
      obtain ⟨msg, h1, h2, h3⟩ := processData_output_filter data h
      exact ⟨data, msg, rfl, h1, h2, h3⟩

/-- The span block of a dictionary span: its two `File:`/`Text:` lines, with
each field looked up or defaulted. -/
theorem spanBlock_obj (kvs : List (String × Json)) :
    ParseErrors.spanBlock (Json.obj kvs) =
      ["File: " ++ pyStr ((jsonLookup kvs "file_name").getD Json.null) ++ ":" ++
         pyStr ((jsonLookup kvs "line_start").getD Json.null) ++ ":" ++
         pyStr ((jsonLookup kvs "column_start").getD Json.null),
       "Text: " ++ pyStr ((jsonLookup kvs "text").getD (Json.arr []))] := rfl

/-- When every span is a dictionary, the span loop runs to completion and
emits exactly one block per span. -/
theorem processSpans_all_obj (spans : List Json)
    (h : ∀ s ∈ spans, ∃ kvs, s = Json.obj kvs) :
    ParseErrors.processSpans spans = spans.flatMap ParseErrors.spanBlock := by
  induction spans with
  | nil => rfl
  | cons s rest ih =>
    obtain ⟨kvs, rfl⟩ := h s (List.mem_cons_self s rest)
    rw [List.flatMap_cons, ← ih (fun t ht => h t (List.mem_cons_of_mem _ ht))]
    rfl

/-- C8 (amended): for every parsed record with reason `compiler-message` and
`message.level` equal to `error`, whose `code` field is absent or a JSON
object and whose `spans` field is absent or an array of JSON objects, the
summarizer prints the message text, then a `Code:` line showing the error
code (`None` standing for an absent code, since `pyStr Json.null = "None"`),
and then exactly one `File:`/`Text:` block per entry of `message.spans`. -/
theorem c8_error_record_output (data msg mv : Json) (ckvs : List (String × Json))
    (spans : List Json)
    (hr : ParseErrors.pyGet data "reason" Json.null =
        Except.ok (Json.str "compiler-message"))
    (hm : ParseErrors.pyGet data "message" Json.null = Except.ok msg)
    (hl : ParseErrors.pyGet msg "level" Json.null = Except.ok (Json.str "error"))
    (hmsg : ParseErrors.pyGet msg "message" Json.null = Except.ok mv)
    (hcode : ParseErrors.pyGet msg "code" (Json.obj []) = Except.ok (Json.obj ckvs))
    (hspans : ParseErrors.pyGet msg "spans" (Json.arr []) = Except.ok (Json.arr spans))
    (hobj : ∀ s ∈ spans, ∃ kvs, s = Json.obj kvs) :
    ParseErrors.processData data =
      ("Error: " ++ pyStr mv)
        :: ("Code: " ++ pyStr ((jsonLookup ckvs "code").getD Json.null))
        :: spans.flatMap ParseErrors.spanBlock ∧
    (∀ s ∈ spans, ∃ fileName lineStart colStart text,
      ParseErrors.spanBlock s =
        ["File: " ++ pyStr fileName ++ ":" ++ pyStr lineStart ++ ":" ++ pyStr colStart,
         "Text: " ++ pyStr text]) ∧
    pyStr Json.null = "None" := by
  refine ⟨?_, ?_, rfl⟩
  · unfold ParseErrors.processData
    simp only [hr]
    rw [if_pos (show ParseErrors.pyEqStr (Json.str "compiler-message")
      "compiler-message" = true from rfl)]
    simp only [hm, hl]
    rw [if_pos (show ParseErrors.pyEqStr (Json.str "error") "error" = true from rfl)]
    simp only [hmsg, hcode, hspans]
    simp only [ParseErrors.pyGet, ParseErrors.pyIter]
    rw [processSpans_all_obj spans hobj]
  · intro s hs
    obtain ⟨kvs, rfl⟩ := hobj s hs
    exact ⟨_, _, _, _, spanBlock_obj kvs⟩

set_option maxRecDepth 10000 in
/-- Witness for C8 at the well-formed record: the full four-line output. -/
theorem c8_error_record_output_witness :
    ParseErrors.processData wfRecord =
      ["Error: mismatched types", "Code: E0308", "File: a.rs:3:5", "Text: []"] := by
  have h := c8_error_record_output wfRecord wfMsg (Json.str "mismatched types")
    [("code", Json.str "E0308")] [Json.obj wfSpan] rfl rfl rfl rfl rfl rfl
    (fun s hs => ⟨wfSpan, by simpa using hs⟩)
  rw [h.1]; decide

set_option maxRecDepth 10000 in
/-- C8 counterexample: `nullCodeRecord` has reason `compiler-message`, level
`error` and one span, yet its output is the `Error:` line alone — no `Code:`
line and no span block, because `.get('code')` raises on `None`. -/
theorem c8_counterexample :
    ParseErrors.pyGet nullCodeRecord "reason" Json.null =
      Except.ok (Json.str "compiler-message") ∧
    (ParseErrors.pyGet nullCodeRecord "message" Json.null = Except.ok nullCodeMsg ∧
      ParseErrors.pyGet nullCodeMsg "level" Json.null = Except.ok (Json.str "error") ∧
      ParseErrors.pyGet nullCodeMsg "spans" (Json.arr []) =
        Except.ok (Json.arr [Json.obj wfSpan])) ∧
    ParseErrors.processData nullCodeRecord = ["Error: expected struct"] :=
  ⟨rfl, ⟨rfl, rfl, rfl⟩, by decide⟩

/-- C3: when the imaging dependency is unavailable the generator prints the
installation hint, creates no directories and no files (the filesystem is
returned untouched), and exits with status 1. -/
theorem c3_missing_dependency (env : Env) (fs0 : FS)
    (h : env.pillowAvailable = false) :
    (ConvertIcons.main env fs0).exitCode = 1 ∧
    (ConvertIcons.main env fs0).fs = fs0 ∧
    "❌ Error: PIL/Pillow not installed!" ∈ (ConvertIcons.main env fs0).output ∧
    "  pip install Pillow" ∈ (ConvertIcons.main env fs0).output := by
  simp only [ConvertIcons.main, h, eq_self_iff_true, if_true]
  exact ⟨trivial, trivial, by decide, by decide⟩

/-- Witness for C3 on a concrete run from an empty filesystem. -/
theorem c3_missing_dependency_witness :
    (ConvertIcons.main envNoPillow emptyFS).exitCode = 1 ∧
    (ConvertIcons.main envNoPillow emptyFS).fs = emptyFS ∧
    "❌ Error: PIL/Pillow not installed!" ∈ (ConvertIcons.main envNoPillow emptyFS).output ∧
    "  pip install Pillow" ∈ (ConvertIcons.main envNoPillow emptyFS).output :=
  c3_missing_dependency envNoPillow emptyFS rfl

/-- C5: after a run with the imaging dependency present, each size in
`[512, 256, 128, 64, 48, 32]` has a PNG file `png/icon_{size}.png` on disk
holding the generated icon, whose width and height equal that size. -/
theorem c5_png_files (env : Env) (fs0 : FS) (h : env.pillowAvailable = true) :
    ∀ size ∈ ConvertIcons.pngSizes,
      ConvertIcons.fsLookup (ConvertIcons.main env fs0).fs (ConvertIcons.pngPath size) =
        some (ConvertIcons.FileData.png (ConvertIcons.generate_simple_icon size)) ∧
      (ConvertIcons.generate_simple_icon size).width = size ∧
      (ConvertIcons.generate_simple_icon size).height = size := by
  intro size hs
  simp only [ConvertIcons.pngSizes, List.mem_cons, List.not_mem_nil, or_false] at hs
  simp only [ConvertIcons.main, h]
  rw [if_neg (by decide : ¬ (true = false))]
  by_cases hio : env.icoSaveOk = true
  · rw [if_pos hio]
    rcases hs with rfl | rfl | rfl | rfl | rfl | rfl <;> exact ⟨rfl, rfl, rfl⟩
  · rw [if_neg hio]
    rcases hs with rfl | rfl | rfl | rfl | rfl | rfl <;> exact ⟨rfl, rfl, rfl⟩

/-- Witness for C5 at size 512 on a concrete run. -/
theorem c5_png_files_witness :
    ConvertIcons.fsLookup (ConvertIcons.main envFull emptyFS).fs (ConvertIcons.pngPath 512) =
      some (ConvertIcons.FileData.png (ConvertIcons.generate_simple_icon 512)) ∧
    (ConvertIcons.generate_simple_icon 512).width = 512 ∧
    (ConvertIcons.generate_simple_icon 512).height = 512 :=
  c5_png_files envFull emptyFS rfl 512 (by decide)

/-- C2 (code bug): on a normal successful run the written `ico/canview.ico`
bundle holds exactly the 16×16 frame.  The save is called on `images[0]`,
the 16×16 canvas, without `append_images`, so the ICO writer discards every
requested size in `[32, 48, 64, 128, 256]` as larger than the base image
and the loaded PNGs contribute no frames — against the claim (and the
script's own "Create ICO file with multiple sizes" intent). -/
theorem c2_ico_only_16x16 :
    ConvertIcons.fsLookup (ConvertIcons.main envFull emptyFS).fs "ico/canview.ico" =
      some (ConvertIcons.FileData.ico [(16, 16)]) ∧
    ∀ size ∈ ConvertIcons.icoSizes,
      ConvertIcons.fsLookup (ConvertIcons.main envFull emptyFS).fs (ConvertIcons.pngPath size) =
        some (ConvertIcons.FileData.png (ConvertIcons.generate_simple_icon size)) := by
  exact ⟨rfl, by decide⟩

/-- C4: when ICO assembly fails, the failure is caught — the run prints the
diagnostic, carries on to the completion banner, exits with code 0, keeps
every generated PNG untouched, and leaves the bundle path as it was. -/
theorem c4_bundle_failure_survives (env : Env) (fs0 : FS)
    (hp : env.pillowAvailable = true) (hio : env.icoSaveOk = false) :
    (ConvertIcons.main env fs0).exitCode = 0 ∧
    ("❌ Error creating ICO: " ++ env.icoError) ∈ (ConvertIcons.main env fs0).output ∧
    "✓ Conversion complete!" ∈ (ConvertIcons.main env fs0).output ∧
    (∀ size ∈ ConvertIcons.pngSizes,
      ConvertIcons.fsLookup (ConvertIcons.main env fs0).fs (ConvertIcons.pngPath size) =
        some (ConvertIcons.FileData.png (ConvertIcons.generate_simple_icon size))) ∧
    ConvertIcons.fsLookup (ConvertIcons.main env fs0).fs "ico/canview.ico" =
      ConvertIcons.fsLookup fs0 "ico/canview.ico" := by
  simp only [ConvertIcons.main, hp, hio]
  rw [if_neg (by decide : ¬ (true = false)), if_neg (by decide : ¬ (false = true))]
  refine ⟨rfl, ?_, ?_, ?_, rfl⟩
  · simp [ConvertIcons.savePngs, ConvertIcons.pngSizes]
  · simp [ConvertIcons.savePngs, ConvertIcons.pngSizes]
  · intro size hs
    simp only [ConvertIcons.pngSizes, List.mem_cons, List.not_mem_nil, or_false] at hs
    rcases hs with rfl | rfl | rfl | rfl | rfl | rfl <;> rfl

/-- Witness for C4 on a concrete run with a failing bundle save. -/
theorem c4_bundle_failure_survives_witness :
    (ConvertIcons.main envIcoFails emptyFS).exitCode = 0 ∧
    ("❌ Error creating ICO: " ++ envIcoFails.icoError) ∈
      (ConvertIcons.main envIcoFails emptyFS).output ∧
    "✓ Conversion complete!" ∈ (ConvertIcons.main envIcoFails emptyFS).output ∧
    (∀ size ∈ ConvertIcons.pngSizes,
      ConvertIcons.fsLookup (ConvertIcons.main envIcoFails emptyFS).fs
          (ConvertIcons.pngPath size) =
        some (ConvertIcons.FileData.png (ConvertIcons.generate_simple_icon size))) ∧
    ConvertIcons.fsLookup (ConvertIcons.main envIcoFails emptyFS).fs "ico/canview.ico" =
      ConvertIcons.fsLookup emptyFS "ico/canview.ico" :=
  c4_bundle_failure_survives envIcoFails emptyFS rfl rfl

/-- C9: every generated icon is a canvas filled with the background colour
carrying exactly 5 circles, all centred on the horizontal centreline
`y = size/2` at evenly spaced x positions; the middle circle (index 2) has
the third node colour and a strictly larger radius, its two neighbours the
second node colour, and the two outer circles the first node colour, all
four with equal radii. -/
theorem c9_icon_drawing (size : Nat) (hs : size ∈ ConvertIcons.pngSizes) :
    (ConvertIcons.generate_simple_icon size).bg = (ConvertIcons.COLORS.bg, 255) ∧
    (ConvertIcons.generate_simple_icon size).ellipses.length = 5 ∧
    (∀ e ∈ (ConvertIcons.generate_simple_icon size).ellipses,
      ConvertIcons.centerY e = (size : Int) / 2) ∧
    (∀ i ∈ [0, 1, 2],
      ConvertIcons.centerX (nodeAt size (i + 1)) - ConvertIcons.centerX (nodeAt size i) =
        ConvertIcons.centerX (nodeAt size (i + 2)) -
          ConvertIcons.centerX (nodeAt size (i + 1))) ∧
    (nodeAt size 2).fill = (ConvertIcons.COLORS.node3, 255) ∧
    ConvertIcons.radiusOf (nodeAt size 2) > ConvertIcons.radiusOf (nodeAt size 0) ∧
    (nodeAt size 1).fill = (ConvertIcons.COLORS.node2, 255) ∧
    (nodeAt size 3).fill = (ConvertIcons.COLORS.node2, 255) ∧
    (nodeAt size 0).fill = (ConvertIcons.COLORS.node1, 255) ∧
    (nodeAt size 4).fill = (ConvertIcons.COLORS.node1, 255) ∧
    ConvertIcons.radiusOf (nodeAt size 0) = ConvertIcons.radiusOf (nodeAt size 1) ∧
    ConvertIcons.radiusOf (nodeAt size 1) = ConvertIcons.radiusOf (nodeAt size 3) ∧
    ConvertIcons.radiusOf (nodeAt size 3) = ConvertIcons.radiusOf (nodeAt size 4) := by
  simp only [ConvertIcons.pngSizes, List.mem_cons, List.not_mem_nil, or_false] at hs
  rcases hs with rfl | rfl | rfl | rfl | rfl | rfl <;> decide

/-- Witness for C9 at size 512. -/
theorem c9_icon_drawing_witness :
    (ConvertIcons.generate_simple_icon 512).bg = (ConvertIcons.COLORS.bg, 255) ∧
    (ConvertIcons.generate_simple_icon 512).ellipses.length = 5 :=
  let h := c9_icon_drawing 512 (by decide)
  ⟨h.1, h.2.1⟩
